import Mathlib

/-!
Verification of the `twits` micro-blog server (`src/main.rs`).

The program is a warp HTTP server over an in-memory sqlite table
`twits (id INTEGER PRIMARY KEY AUTOINCREMENT, user TEXT, content TEXT,
createdAt TIMESTAMP DEFAULT CURRENT_TIMESTAMP)`, seeded with one row
`('Bob', 'First twit')`.  Four filters are composed with `or`:
`list_twits` (GET /twits, JSON), `create_twit` (POST /twits),
`twits_html` (GET /twits_html, HTML) and `index_html` (`warp::get()`
with no path restriction).

Modelling decisions (shallow embedding):
* sqlite's `SELECT * FROM twits` returns rows in rowid (insertion)
  order; the table is a Lean list in that order, with the
  AUTOINCREMENT counter `seq` carried alongside.
* `CURRENT_TIMESTAMP` is an integer supplied by the request (`time`).
* The sqlite engine's answer to the INSERT is a parameter (`Engine`):
  `okEngine` is the normal behaviour, `failEngine` models the engine
  rejecting the write.  The Rust handler `.unwrap()`s the statement
  result, so an engine failure is a panic, modelled by the
  `RouteResult.panic` outcome.
* The handlebars renderer is external and pure (per its interface it
  maps template + data to text), so an HTML response is modelled by
  the template's input data (`htmlTwits` payload / `htmlIndex` title).
* warp rejection bookkeeping: a path mismatch rejects with 404, a
  method mismatch with 405 (`method_not_allowed`), a form-body
  deserialization failure with 400.  When `or` combines two
  rejections, warp's `Rejections::preferred` ranks 404 (NOT_FOUND)
  lowest and 405 (METHOD_NOT_ALLOWED) second lowest — each loses to
  any other rejection — and otherwise keeps the higher status code.
-/

/-- The serialized `Twit` struct: `id` and `created_at` are `Option<i64>`. -/
structure Twit where
  id : Option Int
  user : String
  content : String
  created_at : Option Int
deriving Repr, DecidableEq

/-- One persisted row of the `twits` table (all columns populated by sqlite). -/
structure Row where
  id : Int
  user : String
  content : String
  createdAt : Int
deriving Repr, DecidableEq

/-- The sqlite table: rows in rowid order plus the AUTOINCREMENT counter. -/
structure StoreState where
  rows : List Row
  seq : Int
deriving Repr, DecidableEq

/-- `INSERT INTO twits (user, content) VALUES (?,?)`: sqlite assigns
`id = seq + 1` and `createdAt` from the clock, appending the row. -/
def insertPost (s : StoreState) (user content : String) (t : Int) : Row × StoreState :=
  let r : Row := ⟨s.seq + 1, user, content, t⟩
  (r, ⟨s.rows ++ [r], s.seq + 1⟩)

/-- `SELECT * FROM twits`: all rows in rowid order. -/
def listPosts (s : StoreState) : List Row :=
  s.rows

/-- `TwitterServer::new`: create the table and seed it with
`('Bob', 'First twit')` at startup time `t0` (row id 1). -/
def initState (t0 : Int) : StoreState :=
  ⟨[⟨1, "Bob", "First twit", t0⟩], 1⟩

/-- `handlers::list_twits_from_db`: read every row and wrap it as a
`Twit` with `id` and `created_at` both populated. -/
def list_twits_from_db (s : StoreState) : List Twit :=
  (listPosts s).map fun r => ⟨some r.id, r.user, r.content, some r.createdAt⟩

/-- HTTP methods distinguished by the filters (`warp::get()` / `warp::post()`
reject any other method with 405). -/
inductive Method where
  | GET
  | POST
  | OTHER
deriving Repr, DecidableEq

/-- An incoming request: method, path segments, the transport's remote
address as seen by `warp::addr::remote()` (the ip rendered as a string),
the `content` field of the form body if present and well-formed, and the
clock value sqlite would use for `CURRENT_TIMESTAMP`. -/
structure Request where
  method : Method
  path : List String
  addr : Option String
  body : Option String
  time : Int
deriving Repr, DecidableEq

/-- The four handlers registered in `main`. -/
inductive Handler where
  | listJson
  | create
  | listHtml
  | index
deriving Repr, DecidableEq

/-- A response, with HTML modelled by the renderer's input data. -/
inductive Response where
  | json (twits : List Twit)
  | jsonOne (t : Twit)
  | htmlTwits (twits : List Twit)
  | htmlIndex (title : String)
  | error (status : Nat)
deriving Repr, DecidableEq

/-- Result of running one filter: it replies (recording which handler
produced the response and the store state afterwards), rejects with a
status, or panics (an `unwrap` failed inside the filter or handler). -/
inductive FilterResult where
  | accept (h : Handler) (r : Response) (s : StoreState)
  | reject (status : Nat)
  | panic
deriving Repr, DecidableEq

/-- Result of full dispatch: a response (with the handler that made it,
`none` when the rejection machinery built an error reply) or a panic. -/
inductive RouteResult where
  | ok (h : Option Handler) (r : Response) (s : StoreState)
  | panic
deriving Repr, DecidableEq

/-- warp `Rejections::preferred`: 404 (NOT_FOUND) is ranked lowest and
405 (METHOD_NOT_ALLOWED) second lowest, each losing to any other
rejection; between the remaining rejections the higher status code
wins. -/
def combineRej (a b : Nat) : Nat :=
  if b = 404 then a
  else if a = 404 then b
  else if b = 405 then a
  else if a = 405 then b
  else if a < b then b
  else a

/-- The sqlite engine's behaviour on the INSERT statement: `none`
means the engine rejected the write. -/
def Engine : Type :=
  StoreState → String → String → Int → Option (Row × StoreState)

/-- Normal engine behaviour: the insert succeeds. -/
def okEngine : Engine :=
  fun s u c t => some (insertPost s u c t)

/-- An engine that rejects every write (e.g. constraint violation). -/
def failEngine : Engine :=
  fun _ _ _ _ => none

/-- `filters::list_twits`: `path!("twits")`, then `warp::get()`, then
`handlers::list_twits`, which serializes the rows to JSON. -/
def list_twits_f (req : Request) (s : StoreState) : FilterResult :=
  if req.path ≠ ["twits"] then .reject 404
  else if req.method ≠ .GET then .reject 405
  else .accept .listJson (.json (list_twits_from_db s)) s

/-- `filters::create_twit`: `path!("twits")`, `warp::post()`,
`warp::addr::remote()`, `warp::body::form` (rejects 400 when `content`
is missing), then a map that does `ip.unwrap()` (panics when the remote
address is absent), then `handlers::create_twit`, which runs the INSERT,
`unwrap`s the statement result (panics when the engine rejects the
write) and replies with the pre-insert `Twit` as JSON. -/
def create_twit_f (eng : Engine) (req : Request) (s : StoreState) : FilterResult :=
  if req.path ≠ ["twits"] then .reject 404
  else if req.method ≠ .POST then .reject 405
  else
    match req.body with
    | none => .reject 400
    | some c =>
      match req.addr with
      | none => .panic
      | some a =>
        let twit : Twit := ⟨none, a, c, none⟩
        match eng s a c req.time with
        | none => .panic
        | some (_, s') => .accept .create (.jsonOne twit) s'

/-- `filters::twits_html`: `path!("twits_html")`, `warp::get()`, then
`handlers::list_twit_html`, which reads the rows with
`list_twits_from_db` and renders the `twits_html` template over them. -/
def twits_html_f (req : Request) (s : StoreState) : FilterResult :=
  if req.path ≠ ["twits_html"] then .reject 404
  else if req.method ≠ .GET then .reject 405
  else .accept .listHtml (.htmlTwits (list_twits_from_db s)) s

/-- `filters::index_html`: just `warp::get()` — no path filter — then
`handlers::index_html`, which renders the `index` template with the
fixed title `"Test"`. -/
def index_html_f (req : Request) (s : StoreState) : FilterResult :=
  if req.method ≠ .GET then .reject 405
  else .accept .index (.htmlIndex "Test") s

/-- warp's `or`: try the first filter; on rejection try the second and,
if it also rejects, combine the two rejections.  A panic propagates. -/
def orF (f g : Request → StoreState → FilterResult) :
    Request → StoreState → FilterResult :=
  fun req s =>
    match f req s with
    | .accept h r s' => .accept h r s'
    | .panic => .panic
    | .reject r1 =>
      match g req s with
      | .accept h r s' => .accept h r s'
      | .panic => .panic
      | .reject r2 => .reject (combineRej r1 r2)

/-- The route tree of `main`:
`(list_twits.or(create_twit)).or(twits_html.or(index_html))`. -/
def routesF (eng : Engine) : Request → StoreState → FilterResult :=
  orF (orF list_twits_f (create_twit_f eng)) (orF twits_html_f index_html_f)

/-- Full dispatch: an unhandled rejection becomes an error reply with
the preferred status and leaves the store untouched. -/
def route (eng : Engine) (req : Request) (s : StoreState) : RouteResult :=
  match routesF eng req s with
  | .accept h r s' => .ok (some h) r s'
  | .reject st => .ok none (.error st) s
  | .panic => .panic

/-- A sequence of `insertPost` calls, each with its author, content and
insertion time, applied to a store state. -/
def runInserts (s : StoreState) (ops : List (String × String × Int)) : StoreState :=
  ops.foldl (fun st op => (insertPost st op.1 op.2.1 op.2.2).2) s

/-- Projection of a row to its author/content pair. -/
def projUC (r : Row) : String × String :=
  (r.user, r.content)

/-- All row ids are bounded by the AUTOINCREMENT counter. -/
def idsBounded (s : StoreState) : Prop :=
  ∀ r ∈ s.rows, r.id ≤ s.seq

/-- The handler that produced a dispatch result, if any. -/
def respHandler : RouteResult → Option Handler
  | .ok h _ _ => h
  | .panic => none

/-- Whether a dispatch result is an HTTP reply at all (as opposed to a
panic that tears the request down without a response). -/
def isReply : RouteResult → Bool
  | .ok _ _ _ => true
  | .panic => false

/-- Whether a response is a client-error (4xx) reply. -/
def clientError : Response → Bool
  | .error st => 400 ≤ st && st < 500
  | _ => false

theorem runInserts_nil (s : StoreState) : runInserts s [] = s := rfl

theorem runInserts_cons (s : StoreState) (op : String × String × Int)
    (ops : List (String × String × Int)) :
    runInserts s (op :: ops) = runInserts (insertPost s op.1 op.2.1 op.2.2).2 ops := rfl

theorem runInserts_map_projUC (ops : List (String × String × Int)) :
    ∀ s : StoreState, (runInserts s ops).rows.map projUC
      = s.rows.map projUC ++ ops.map (fun o => (o.1, o.2.1)) := by
  induction ops with
  | nil => intro s; simp [runInserts]
  | cons op ops ih =>
    intro s
    rw [runInserts_cons, ih]
    simp [insertPost, projUC]

theorem insertPost_preserves (s : StoreState) (u c : String) (t : Int)
    (hb : idsBounded s)
    (hp : s.rows.Pairwise (fun a b => a.id < b.id)) :
    idsBounded (insertPost s u c t).2
    ∧ ((insertPost s u c t).2).rows.Pairwise (fun a b => a.id < b.id) := by
  constructor
  · intro r hr
    simp only [insertPost, List.mem_append, List.mem_singleton] at hr
    rcases hr with hr | hr
    · have := hb r hr
      simp only [insertPost]
      omega
    · subst hr
      simp [insertPost]
  · simp only [insertPost, List.pairwise_append]
    refine ⟨hp, by simp, ?_⟩
    intro x hx y hy
    simp only [List.mem_singleton] at hy
    subst hy
    have := hb x hx
    simp only []
    omega

theorem runInserts_preserves (ops : List (String × String × Int)) :
    ∀ s : StoreState, idsBounded s →
      s.rows.Pairwise (fun a b => a.id < b.id) →
      idsBounded (runInserts s ops)
      ∧ (runInserts s ops).rows.Pairwise (fun a b => a.id < b.id) := by
  induction ops with
  | nil => intro s hb hp; exact ⟨hb, hp⟩
  | cons op ops ih =>
    intro s hb hp
    rw [runInserts_cons]
    have h := insertPost_preserves s op.1 op.2.1 op.2.2 hb hp
    exact ih _ h.1 h.2

/-- Claim C1 (counterexample): `POST /twits` with `content=Hello` from
address `1.2.3.4` on the fresh store returns 200 JSON, but the returned
object is the pre-insert `Twit`: its `id` and `created_at` are both
null, contradicting the claim that both are non-null (store-assigned). -/
theorem c1_counterexample :
    route okEngine ⟨.POST, ["twits"], some "1.2.3.4", some "Hello", 5⟩ (initState 0)
      = .ok (some .create) (.jsonOne ⟨none, "1.2.3.4", "Hello", none⟩)
          ⟨[⟨1, "Bob", "First twit", 0⟩, ⟨2, "1.2.3.4", "Hello", 5⟩], 2⟩
    ∧ ¬ ((Twit.mk none "1.2.3.4" "Hello" none).id ≠ none
         ∧ (Twit.mk none "1.2.3.4" "Hello" none).created_at ≠ none) :=
  ⟨rfl, fun h => h.1 rfl⟩

/-- Claim C1 (amended): `POST /twits` with a `content` field and a
remote address returns 200 JSON whose `content` is the submitted
content and whose `user` is the caller's address, but whose `id` and
`created_at` are both null: the handler replies with the pre-insert
`Twit`, and the store-assigned `id` and `createdAt` exist only on the
row appended to the store. -/
theorem c1_amended (a c : String) (t : Int) (s : StoreState) :
    route okEngine ⟨.POST, ["twits"], some a, some c, t⟩ s
      = .ok (some .create) (.jsonOne ⟨none, a, c, none⟩)
          ⟨s.rows ++ [⟨s.seq + 1, a, c, t⟩], s.seq + 1⟩ := rfl

/-- Claim C2: after any sequence of `insertPost` calls from the startup
state, `listPosts` returns exactly the seed row followed by those posts
in call order, with ids pairwise strictly increasing along the list
(hence ascending `id` order and all ids unique). -/
theorem c2_inserts_then_list (ops : List (String × String × Int)) (t0 : Int) :
    (listPosts (runInserts (initState t0) ops)).map projUC
      = ("Bob", "First twit") :: ops.map (fun o => (o.1, o.2.1))
    ∧ (listPosts (runInserts (initState t0) ops)).Pairwise (fun a b => a.id < b.id)
    ∧ ((listPosts (runInserts (initState t0) ops)).map Row.id).Nodup
    ∧ (listPosts (runInserts (initState t0) ops)).Chain' (fun a b => a.id < b.id) := by
  have hb : idsBounded (initState t0) := by
    intro r hr
    simp only [initState, List.mem_singleton] at hr
    subst hr
    simp [initState]
  have hp : (initState t0).rows.Pairwise (fun a b : Row => a.id < b.id) := by
    simp [initState]
  have hpre := runInserts_preserves ops (initState t0) hb hp
  have hmap := runInserts_map_projUC ops (initState t0)
  refine ⟨?_, hpre.2, ?_, hpre.2.chain'⟩
  · simpa [listPosts, initState, projUC] using hmap
  · have : ((runInserts (initState t0) ops).rows.map Row.id).Pairwise (· < ·) :=
      List.pairwise_map.2 hpre.2
    exact this.imp fun h => ne_of_lt h

/-- Claim C5 (counterexample): when the engine rejects the write, the
`create_twit` handler `unwrap`s the statement result and panics: the
dispatch of `POST /twits` with `content=Hello` produces no HTTP reply
at all, so the failure is not converted into an HTTP error response. -/
theorem c5_counterexample :
    route failEngine ⟨.POST, ["twits"], some "1.2.3.4", some "Hello", 0⟩ (initState 0)
      = .panic
    ∧ isReply (route failEngine ⟨.POST, ["twits"], some "1.2.3.4", some "Hello", 0⟩
        (initState 0)) = false :=
  ⟨rfl, rfl⟩

/-- Claim C5 (amended): when the underlying engine rejects the write
during `insertPost`, the handler panics (it `unwrap`s the statement
result); no `PersistenceError` value reaches the caller and no HTTP
error response is produced for that request. -/
theorem c5_amended (a c : String) (t : Int) (s : StoreState) :
    route failEngine ⟨.POST, ["twits"], some a, some c, t⟩ s = .panic := rfl

/-- Claim C6: a `POST /twits` whose form body lacks the `content` field
is rejected by `warp::body::form` before the handler runs: the dispatch
yields a client-error (4xx) reply — the 400 body-deserialize error,
which warp's rejection preference keeps over the sibling routes' 404s
and method-not-allowed 405s — with no handler invoked and the store
state unchanged, whatever the engine and the remote address. -/
theorem c6_missing_content (eng : Engine) (a : Option String) (t : Int) (s : StoreState) :
    route eng ⟨.POST, ["twits"], a, none, t⟩ s = .ok none (.error 400) s
    ∧ clientError (.error 400) = true
    ∧ listPosts s = listPosts s :=
  ⟨rfl, rfl, rfl⟩

/-- Claim C7 (counterexample): a `POST /twits` whose remote address is
absent panics inside the filter (`ip.unwrap()` on `None`): no client
error response is produced, contradicting the claimed
`ValidationError` surfaced as a client error. -/
theorem c7_counterexample :
    route okEngine ⟨.POST, ["twits"], none, some "Hello", 0⟩ (initState 0) = .panic
    ∧ isReply (route okEngine ⟨.POST, ["twits"], none, some "Hello", 0⟩
        (initState 0)) = false :=
  ⟨rfl, rfl⟩

/-- Claim C7 (amended): a `POST /twits` with a well-formed body but no
originating network address makes the filter panic on `ip.unwrap()`
before any store access (the result is a panic for every engine): no
error response of any kind is produced. -/
theorem c7_amended (eng : Engine) (c : String) (t : Int) (s : StoreState) :
    route eng ⟨.POST, ["twits"], none, some c, t⟩ s = .panic := rfl

/-- Claim C8: on the same store state, `GET /twits` replies with the
JSON serialization of `list_twits_from_db` and `GET /twits_html` passes
exactly the same list to the `twits_html` template: both
representations are derived from the one shared persistence read. -/
theorem c8_same_data (s : StoreState) (a b : Option String) (t : Int)
    (a' b' : Option String) (t' : Int) :
    route okEngine ⟨.GET, ["twits"], a, b, t⟩ s
      = .ok (some .listJson) (.json (list_twits_from_db s)) s
    ∧ route okEngine ⟨.GET, ["twits_html"], a', b', t'⟩ s
      = .ok (some .listHtml) (.htmlTwits (list_twits_from_db s)) s :=
  ⟨rfl, rfl⟩

/-- Claim C9: on the fresh startup state, `GET /twits` is answered by
the JSON list handler with exactly one post, `user = "Bob"`,
`content = "First twit"`, its seed id 1 and startup timestamp. -/
theorem c9_fresh_list (t0 : Int) (a b : Option String) (t : Int) :
    route okEngine ⟨.GET, ["twits"], a, b, t⟩ (initState t0)
      = .ok (some .listJson) (.json [⟨some 1, "Bob", "First twit", some t0⟩])
          (initState t0) := rfl

/-- Claim C3 (counterexample): `GET /nope` matches none of the four
registered routes, yet the server answers it with the index page
(status 200) because `filters::index_html` is `warp::get()` with no
path restriction — not with a not-found response. -/
theorem c3_counterexample :
    route okEngine ⟨.GET, ["nope"], none, none, 0⟩ (initState 0)
      = .ok (some .index) (.htmlIndex "Test") (initState 0)
    ∧ (Response.htmlIndex "Test") ≠ .error 404 :=
  ⟨rfl, by decide⟩

/-- Claim C3 (amended): unmatched requests never get a not-found
response: a GET whose path is neither `/twits` nor `/twits_html` falls
through to the index handler (200 HTML); a non-GET request at a path
other than `/twits` gets a 405 method-not-allowed error (warp's
preferred rejection); and no dispatch ever replies with a 404. -/
theorem c3_amended (req : Request) (s : StoreState) :
    (req.method = .GET → req.path ≠ ["twits"] → req.path ≠ ["twits_html"] →
        route okEngine req s = .ok (some .index) (.htmlIndex "Test") s)
    ∧ (req.method ≠ .GET → req.path ≠ ["twits"] →
        route okEngine req s = .ok none (.error 405) s)
    ∧ (∀ h r s', route okEngine req s = .ok h r s' → r ≠ .error 404) := by
  obtain ⟨m, p, a, b, t⟩ := req
  refine ⟨?_, ?_, ?_⟩
  · intro hm h1 h2
    subst hm
    simp [route, routesF, orF, list_twits_f, create_twit_f, twits_html_f,
      index_html_f, h1, h2, combineRej]
  · intro hm h1
    by_cases h2 : p = ["twits_html"] <;>
      cases m <;>
      simp_all [route, routesF, orF, list_twits_f, create_twit_f, twits_html_f,
        index_html_f, combineRej]
  · intro h r s' heq hr
    subst hr
    by_cases h1 : p = ["twits"] <;> by_cases h2 : p = ["twits_html"] <;>
      cases m <;>
      cases b <;>
      cases a <;>
      simp_all [route, routesF, orF, list_twits_f, create_twit_f, twits_html_f,
        index_html_f, combineRej, okEngine]

/-- Claim C3 (witness): the amended theorem applied to the concrete
requests `GET /nope` (index page) and `POST /nope` (405). -/
theorem c3_amended_witness :
    route okEngine ⟨.GET, ["nope"], none, none, 0⟩ (initState 0)
      = .ok (some .index) (.htmlIndex "Test") (initState 0)
    ∧ route okEngine ⟨.POST, ["nope"], none, none, 0⟩ (initState 0)
      = .ok none (.error 405) (initState 0) :=
  ⟨(c3_amended ⟨.GET, ["nope"], none, none, 0⟩ (initState 0)).1 rfl
      (by decide) (by decide),
   (c3_amended ⟨.POST, ["nope"], none, none, 0⟩ (initState 0)).2.1
      (by decide) (by decide)⟩

/-- Claim C10 (counterexample): for `POST /nope` every filter rejects,
so the response (a 405 error) is produced by the rejection machinery
and not by any handler (the handler component of the result is `none`):
it is not the case that exactly one handler produces the response for
every request. -/
theorem c10_counterexample :
    route okEngine ⟨.POST, ["nope"], none, none, 0⟩ (initState 0)
      = .ok none (.error 405) (initState 0)
    ∧ respHandler (route okEngine ⟨.POST, ["nope"], none, none, 0⟩ (initState 0))
      = none :=
  ⟨rfl, rfl⟩

/-- Claim C10 (amended): dispatch is deterministic first-match over the
chain list-JSON, create, twits_html, index: `GET /twits` is always
answered by the JSON list handler and `GET /twits_html` by the HTML
list handler even though the index filter, having no path restriction,
accepts every GET; every GET request is answered by exactly one handler
(any other GET by the index handler); a request no route accepts is
answered by the rejection machinery, not by a handler. -/
theorem c10_amended (req : Request) (s : StoreState) :
    (req.path = ["twits"] → req.method = .GET →
        route okEngine req s = .ok (some .listJson) (.json (list_twits_from_db s)) s)
    ∧ (req.path = ["twits_html"] → req.method = .GET →
        route okEngine req s = .ok (some .listHtml) (.htmlTwits (list_twits_from_db s)) s)
    ∧ (req.method = .GET → req.path ≠ ["twits"] → req.path ≠ ["twits_html"] →
        route okEngine req s = .ok (some .index) (.htmlIndex "Test") s)
    ∧ (req.method = .GET → index_html_f req s = .accept .index (.htmlIndex "Test") s)
    ∧ (req.method = .GET → (respHandler (route okEngine req s)).isSome = true) := by
  obtain ⟨m, p, a, b, t⟩ := req
  refine ⟨?_, ?_, ?_, ?_, ?_⟩
  · intro hp hm
    subst hp; subst hm
    simp [route, routesF, orF, list_twits_f, create_twit_f, twits_html_f,
      index_html_f]
  · intro hp hm
    subst hp; subst hm
    simp [route, routesF, orF, list_twits_f, create_twit_f, twits_html_f,
      index_html_f, combineRej]
  · intro hm h1 h2
    subst hm
    simp [route, routesF, orF, list_twits_f, create_twit_f, twits_html_f,
      index_html_f, h1, h2, combineRej]
  · intro hm
    subst hm
    simp [index_html_f]
  · intro hm
    subst hm
    by_cases h1 : p = ["twits"] <;> by_cases h2 : p = ["twits_html"] <;>
      simp_all [route, routesF, orF, list_twits_f, create_twit_f, twits_html_f,
        index_html_f, combineRej, respHandler]

/-- Claim C10 (witness): the amended theorem applied to the concrete
requests `GET /twits`, `GET /twits_html` and `GET /other`. -/
theorem c10_amended_witness :
    route okEngine ⟨.GET, ["twits"], none, none, 0⟩ (initState 0)
      = .ok (some .listJson) (.json (list_twits_from_db (initState 0))) (initState 0)
    ∧ route okEngine ⟨.GET, ["twits_html"], none, none, 0⟩ (initState 0)
      = .ok (some .listHtml) (.htmlTwits (list_twits_from_db (initState 0))) (initState 0)
    ∧ route okEngine ⟨.GET, ["other"], none, none, 0⟩ (initState 0)
      = .ok (some .index) (.htmlIndex "Test") (initState 0) :=
  ⟨(c10_amended ⟨.GET, ["twits"], none, none, 0⟩ (initState 0)).1 rfl rfl,
   (c10_amended ⟨.GET, ["twits_html"], none, none, 0⟩ (initState 0)).2.1 rfl rfl,
   (c10_amended ⟨.GET, ["other"], none, none, 0⟩ (initState 0)).2.2.1 rfl
      (by decide) (by decide)⟩
